import Mathlib

/-!
Shallow embedding of the instruction-decoding core of the `pyqnk` repository
(`src/tx_decode.py`, `src/util.py`) and proofs about it.

Modelling conventions:
* A Python `bytes` buffer is a `List Nat` whose entries are the byte values.
* A Python dict literal is an association list `List (String × Value)` in the
  literal's key order; the dicts returned by the decoders never repeat a key.
* A Python function that may raise is embedded as `PyResult`: `.ok d` is a
  normal return of dict `d`, `.exn e` is a raised exception named `e`.
* Python `data[a:b]` slicing (which clamps, never raises) is `pySlice`;
  `int.from_bytes(bs, "little")` is `intFromBytesLE`; `bytes.hex()` is
  `bytesHex`.
* Python float division `lamports / 1_000_000_000` is modelled as exact
  rational division.
-/

/-- A value occurring in a decoder's result dict: Python int, float
(modelled as an exact rational), str, or None. -/
inductive Value where
  | int (n : Nat)
  | rat (q : ℚ)
  | str (s : String)
  | none
deriving DecidableEq, Repr

/-- A Python dict with string keys, in literal order. -/
abbrev PyDict := List (String × Value)

/-- Outcome of calling a decoder: a returned dict or a raised exception. -/
inductive PyResult where
  | ok (d : PyDict)
  | exn (e : String)
deriving DecidableEq, Repr

/-- Python `data[a:b]` for `0 ≤ a ≤ b`: clamps to the buffer, never raises. -/
def pySlice (data : List Nat) (a b : Nat) : List Nat :=
  (data.drop a).take (b - a)

/-- Python `int.from_bytes(bs, "little")`. -/
def intFromBytesLE : List Nat → Nat
  | [] => 0
  | b :: bs => b + 256 * intFromBytesLE bs

/-- The sixteen lower-case hexadecimal digit characters. -/
def hexDigits : List Char := "0123456789abcdef".data

/-- The lower-case hexadecimal digit for `n < 16`. -/
def hexDigitChar (n : Nat) : Char := hexDigits.getD n '0'

/-- The two hex characters of one byte, high nibble first. -/
def byteHexChars (b : Nat) : List Char := [hexDigitChar (b / 16), hexDigitChar (b % 16)]

/-- Python `bytes.hex()`: lower-case hex, two characters per byte. -/
def bytesHex (data : List Nat) : String := ⟨data.flatMap byteHexChars⟩

/-! Program id string constants from `src/tx_decode.py`. -/

def SYSTEM_PROGRAM_ID : String := "11111111111111111111111111111111"
def TOKEN_PROGRAM_ID : String := "TokenkegQfeZyiNwAJbNbGKPFXCWuBvf9Ss623VQ5DA"
def TOKEN_2022_PROGRAM_ID : String := "TokenzQdBNbLqP5VEhdkAS6EPFLC1PHnBqCXEpPxuEb"
def ASSOCIATED_TOKEN_PROGRAM_ID : String := "ATokenGPvbdGVxr1b2hvZbsiqW5xWH25efTNsLJA8knL"
def RAYDIUM_AMM_V4_PROGRAM_ID : String := "675kPX9MHTjS2zt1qfr1NYHuzeLXfQM9H24wFSUt1Mp8"
def RAYDIUM_CLMM_PROGRAM_ID : String := "CAMMCzo5YL8w4VFF8KVHrK22GGUsp5VTaW7grrKgrWqK"
def RAYDIUM_CPMM_PROGRAM_ID : String := "CPMMoo8L3F4NbTegBCKVNunggL7H1ZpdTHKxQB5qKP1C"

/-! Per-program opcode tables, in source order. -/

def SYSTEM_INSTRUCTIONS : List (Nat × String) :=
  [(2, "Transfer"), (3, "CreateAccount"), (8, "CreateAccountWithSeed")]

def TOKEN_INSTRUCTIONS : List (Nat × String) :=
  [(1, "InitializeAccount"), (3, "Transfer"), (7, "MintTo"), (8, "Burn"),
   (9, "CloseAccount")]

def RAYDIUM_AMM_INSTRUCTIONS : List (Nat × String) :=
  [(1, "Initialize"), (2, "Swap"), (3, "DepositAllTokenTypes"),
   (4, "WithdrawAllTokenTypes"), (5, "DepositSingleTokenTypeExactAmountIn"),
   (6, "WithdrawSingleTokenTypeExactAmountOut")]

def RAYDIUM_CLMM_INSTRUCTIONS : List (Nat × String) :=
  [(0, "CreatePool"), (1, "OpenPosition"), (2, "ClosePosition"), (3, "Swap"),
   (4, "IncreasePosition"), (5, "DecreasePosition")]

def RAYDIUM_CPMM_INSTRUCTIONS : List (Nat × String) :=
  [(0, "CreateAmmConfig"), (1, "UpdateAmmConfig"), (2, "UpdatePoolStatus"),
   (3, "CollectProtocolFee"), (4, "CollectFundFee"), (5, "Initialize"),
   (6, "Deposit"), (7, "Withdraw"), (8, "SwapBaseInput"), (9, "SwapBaseOutput")]

/-- Python `table.get(k, "Unknown(" + str(k) + ")")` on the opcode tables,
whose keys are distinct, is association-list lookup with that default. -/
def tableGet (table : List (Nat × String)) (k : Nat) : String :=
  (table.lookup k).getD ("Unknown(" ++ toString k ++ ")")

/-- Embeds `decode_system_instruction` from `src/tx_decode.py`. The opcode is the
4-byte little-endian integer at offset 0; opcode 2 extracts `lamports` from
bytes 4..12 and a SOL value scaled by 10^9. -/
def decode_system_instruction (data : List Nat) : PyResult :=
  if data.length < 4 then .ok [("error", .str "Invalid data length")]
  else
    let instruction_type := intFromBytesLE (pySlice data 0 4)
    let instruction_name := tableGet SYSTEM_INSTRUCTIONS instruction_type
    if instruction_type = 2 then
      .ok [("type", .str instruction_name),
           ("lamports", .int (intFromBytesLE (pySlice data 4 12))),
           ("sol", .rat ((intFromBytesLE (pySlice data 4 12) : ℚ) / 1000000000))]
    else
      .ok [("type", .str instruction_name), ("raw_data", .str (bytesHex data))]

/-- Embeds `decode_token_instruction` from `src/tx_decode.py`. One-byte opcode at
offset 0 (the `len(data) < 1` guard is the empty-buffer case). -/
def decode_token_instruction (data : List Nat) : PyResult :=
  match data with
  | [] => .ok [("error", .str "Invalid data length")]
  | instruction_type :: _ =>
    let instruction_name := tableGet TOKEN_INSTRUCTIONS instruction_type
    if instruction_type = 1 then
      .ok [("type", .str instruction_name),
           ("owner", if 33 ≤ data.length then .str (bytesHex (pySlice data 1 33))
                     else .none)]
    else if instruction_type = 3 then
      .ok [("type", .str instruction_name),
           ("amount", .int (intFromBytesLE (pySlice data 1 9)))]
    else
      .ok [("type", .str instruction_name), ("raw_data", .str (bytesHex data))]

/-- Embeds `decode_token_2022_instruction` from `src/tx_decode.py`: a verbatim copy
of the token decoder in the source. -/
def decode_token_2022_instruction (data : List Nat) : PyResult :=
  match data with
  | [] => .ok [("error", .str "Invalid data length")]
  | instruction_type :: _ =>
    let instruction_name := tableGet TOKEN_INSTRUCTIONS instruction_type
    if instruction_type = 1 then
      .ok [("type", .str instruction_name),
           ("owner", if 33 ≤ data.length then .str (bytesHex (pySlice data 1 33))
                     else .none)]
    else if instruction_type = 3 then
      .ok [("type", .str instruction_name),
           ("amount", .int (intFromBytesLE (pySlice data 1 9)))]
    else
      .ok [("type", .str instruction_name), ("raw_data", .str (bytesHex data))]

/-- Embeds `decode_raydium_amm_instruction` from `src/tx_decode.py`. The source's
`try/except` around the extractions is dead code — slicing and
`int.from_bytes` cannot raise — so the `try` bodies always return. -/
def decode_raydium_amm_instruction (data : List Nat) : PyResult :=
  match data with
  | [] => .ok [("error", .str "Invalid data length")]
  | instruction_type :: _ =>
    let instruction_name := tableGet RAYDIUM_AMM_INSTRUCTIONS instruction_type
    if instruction_type = 2 then
      .ok [("type", .str instruction_name),
           ("amount_in", .int (intFromBytesLE (pySlice data 1 9))),
           ("minimum_amount_out", .int (intFromBytesLE (pySlice data 9 17)))]
    else if instruction_type = 3 ∨ instruction_type = 4 then
      .ok [("type", .str instruction_name),
           ("max_coin_amount", .int (intFromBytesLE (pySlice data 1 9))),
           ("max_pc_amount", .int (intFromBytesLE (pySlice data 9 17)))]
    else
      .ok [("type", .str instruction_name), ("raw_data", .str (bytesHex data))]

/-- Embeds `decode_raydium_clmm_instruction` from `src/tx_decode.py`. As in the AMM
decoder, the source's `try/except` can never fire. -/
def decode_raydium_clmm_instruction (data : List Nat) : PyResult :=
  match data with
  | [] => .ok [("error", .str "Invalid data length")]
  | instruction_type :: _ =>
    let instruction_name := tableGet RAYDIUM_CLMM_INSTRUCTIONS instruction_type
    if instruction_type = 3 then
      .ok [("type", .str instruction_name),
           ("amount_in", .int (intFromBytesLE (pySlice data 1 9))),
           ("amount_out_minimum", .int (intFromBytesLE (pySlice data 9 17))),
           ("sqrt_price_limit", .int (intFromBytesLE (pySlice data 17 25)))]
    else
      .ok [("type", .str instruction_name), ("raw_data", .str (bytesHex data))]

/-- Embeds `decode_raydium_cpmm_instruction` from `src/tx_decode.py`. After the
`len(data) < 1` guard the source reads `data[8]`, which raises `IndexError`
whenever the buffer has 1 to 8 bytes; that read sits outside the `try`
block, so the exception escapes. Field slices start at offset 1 and so
overlap the opcode byte at index 8. -/
def decode_raydium_cpmm_instruction (data : List Nat) : PyResult :=
  match data with
  | [] => .ok [("error", .str "Invalid data length")]
  | _ :: _ =>
    match data[8]? with
    | Option.none => .exn "IndexError"
    | Option.some instruction_type =>
      let instruction_name := tableGet RAYDIUM_CPMM_INSTRUCTIONS instruction_type
      if instruction_type = 5 then
        .ok [("type", .str instruction_name),
             ("init_amount_0", .int (intFromBytesLE (pySlice data 1 9))),
             ("init_amount_1", .int (intFromBytesLE (pySlice data 9 17))),
             ("open_time", .int (intFromBytesLE (pySlice data 17 25)))]
      else if instruction_type = 6 then
        .ok [("type", .str instruction_name),
             ("lp_token_amount", .int (intFromBytesLE (pySlice data 1 9))),
             ("maximum_token_0_amount", .int (intFromBytesLE (pySlice data 9 17))),
             ("maximum_token_1_amount", .int (intFromBytesLE (pySlice data 17 25)))]
      else if instruction_type = 7 then
        .ok [("type", .str instruction_name),
             ("lp_token_amount", .int (intFromBytesLE (pySlice data 1 9))),
             ("minimum_token_0_amount", .int (intFromBytesLE (pySlice data 9 17))),
             ("minimum_token_1_amount", .int (intFromBytesLE (pySlice data 17 25)))]
      else if instruction_type = 8 then
        .ok [("type", .str instruction_name),
             ("amount_in", .int (intFromBytesLE (pySlice data 1 9))),
             ("minimum_amount_out", .int (intFromBytesLE (pySlice data 9 17)))]
      else if instruction_type = 9 then
        .ok [("type", .str instruction_name),
             ("max_amount_in", .int (intFromBytesLE (pySlice data 1 9))),
             ("amount_out", .int (intFromBytesLE (pySlice data 9 17)))]
      else
        .ok [("type", .str instruction_name), ("raw_data", .str (bytesHex data))]

/-- Embeds `decode_instruction_data` from `src/tx_decode.py`: dispatch on the
program id string, with the unknown-program raw-hex fallback. -/
def decode_instruction_data (program_id : String) (data : List Nat) : PyResult :=
  if program_id = SYSTEM_PROGRAM_ID then decode_system_instruction data
  else if program_id = TOKEN_PROGRAM_ID then decode_token_instruction data
  else if program_id = TOKEN_2022_PROGRAM_ID then decode_token_2022_instruction data
  else if program_id = RAYDIUM_AMM_V4_PROGRAM_ID then decode_raydium_amm_instruction data
  else if program_id = RAYDIUM_CPMM_PROGRAM_ID then decode_raydium_cpmm_instruction data
  else if program_id = RAYDIUM_CLMM_PROGRAM_ID then decode_raydium_clmm_instruction data
  else .ok [("program", .str program_id), ("raw_data", .str (bytesHex data))]

/-! ### SHA-256 (the behaviour of Python's `hashlib.sha256`)

`src/util.py` calls `hashlib.sha256(preimage.encode()).digest()`. The hash
itself is standard FIPS 180-4 SHA-256, implemented here over `Nat` with all
word arithmetic taken modulo `2^32`. -/

/-- The SHA-256 word modulus `2^32`. -/
def M32 : Nat := 4294967296

/-- Right rotation of a 32-bit word by `n` (for `0 < n < 32`). -/
def rotr32 (x n : Nat) : Nat := ((x >>> n) ||| (x <<< (32 - n))) % M32

def smallSigma0 (x : Nat) : Nat := rotr32 x 7 ^^^ rotr32 x 18 ^^^ (x >>> 3)

def smallSigma1 (x : Nat) : Nat := rotr32 x 17 ^^^ rotr32 x 19 ^^^ (x >>> 10)

def bigSigma0 (x : Nat) : Nat := rotr32 x 2 ^^^ rotr32 x 13 ^^^ rotr32 x 22

def bigSigma1 (x : Nat) : Nat := rotr32 x 6 ^^^ rotr32 x 11 ^^^ rotr32 x 25

/-- SHA-256 choice function `Ch(e,f,g)`. -/
def chBits (e f g : Nat) : Nat := (e &&& f) ^^^ ((e ^^^ (M32 - 1)) &&& g)

/-- SHA-256 majority function `Maj(a,b,c)`. -/
def majBits (a b c : Nat) : Nat := (a &&& b) ^^^ (a &&& c) ^^^ (b &&& c)

/-- The 64 SHA-256 round constants. -/
def SHA256_K : List Nat :=
  [1116352408, 1899447441, 3049323471, 3921009573, 961987163,
   1508970993, 2453635748, 2870763221, 3624381080, 310598401,
   607225278, 1426881987, 1925078388, 2162078206, 2614888103,
   3248222580, 3835390401, 4022224774, 264347078, 604807628,
   770255983, 1249150122, 1555081692, 1996064986, 2554220882,
   2821834349, 2952996808, 3210313671, 3336571891, 3584528711,
   113926993, 338241895, 666307205, 773529912, 1294757372,
   1396182291, 1695183700, 1986661051, 2177026350, 2456956037,
   2730485921, 2820302411, 3259730800, 3345764771, 3516065817,
   3600352804, 4094571909, 275423344, 430227734, 506948616,
   659060556, 883997877, 958139571, 1322822218, 1537002063,
   1747873779, 1955562222, 2024104815, 2227730452, 2361852424,
   2428436474, 2756734187, 3204031479, 3329325298]

/-- The 8 SHA-256 initial hash words. -/
def SHA256_H0 : List Nat :=
  [1779033703, 3144134277, 1013904242, 2773480762,
   1359893119, 2600822924, 528734635, 1541459225]

/-- Big-endian 4-byte groups to 32-bit words. -/
def bytesToWordsBE : List Nat → List Nat
  | b0 :: b1 :: b2 :: b3 :: rest =>
      (((b0 * 256 + b1) * 256 + b2) * 256 + b3) :: bytesToWordsBE rest
  | _ => []

/-- The `n`-byte big-endian encoding of `v` (mod `2^(8n)`). -/
def natToBytesBE : Nat → Nat → List Nat
  | 0, _ => []
  | n + 1, v => natToBytesBE n (v / 256) ++ [v % 256]

/-- Extend a 16-word message schedule by `n` further words. -/
def extendSchedule : Nat → List Nat → List Nat
  | 0, w => w
  | n + 1, w =>
      extendSchedule n (w ++
        [(smallSigma1 (w.getD (w.length - 2) 0) + w.getD (w.length - 7) 0 +
          smallSigma0 (w.getD (w.length - 15) 0) + w.getD (w.length - 16) 0) % M32])

/-- One SHA-256 round on the 8-word working state, given `(k, w)`. -/
def sha256Round (st : List Nat) (kw : Nat × Nat) : List Nat :=
  match st with
  | [a, b, c, d, e, f, g, h] =>
      let t1 := (h + bigSigma1 e + chBits e f g + kw.1 + kw.2) % M32
      let t2 := (bigSigma0 a + majBits a b c) % M32
      [(t1 + t2) % M32, a, b, c, (d + t1) % M32, e, f, g]
  | other => other

/-- The SHA-256 compression function on one 64-byte block. -/
def sha256Compress (hs : List Nat) (block : List Nat) : List Nat :=
  let w := extendSchedule 48 (bytesToWordsBE block)
  let st := (SHA256_K.zip w).foldl sha256Round hs
  hs.zipWith (fun x y => (x + y) % M32) st

/-- SHA-256 padding: `0x80`, zeros to 56 mod 64, then the 64-bit big-endian
bit length. -/
def sha256Pad (msg : List Nat) : List Nat :=
  msg ++ 128 :: (List.replicate ((119 - msg.length % 64) % 64) 0 ++
    natToBytesBE 8 (msg.length * 8))

/-- Split a padded message into its `n` 64-byte blocks. -/
def toBlocks : Nat → List Nat → List (List Nat)
  | 0, _ => []
  | n + 1, l => l.take 64 :: toBlocks n (l.drop 64)

/-- SHA-256 digest (32 bytes) of a byte message. -/
def sha256 (msg : List Nat) : List Nat :=
  let padded := sha256Pad msg
  ((toBlocks (padded.length / 64) padded).foldl sha256Compress
    SHA256_H0).flatMap (natToBytesBE 4)

/-- UTF-8 encoding of one character (Python `str.encode` per character). -/
def utf8EncodeChar (c : Char) : List Nat :=
  let n := c.toNat
  if n < 128 then [n]
  else if n < 2048 then [192 ||| (n >>> 6), 128 ||| (n &&& 63)]
  else if n < 65536 then
    [224 ||| (n >>> 12), 128 ||| ((n >>> 6) &&& 63), 128 ||| (n &&& 63)]
  else
    [240 ||| (n >>> 18), 128 ||| ((n >>> 12) &&& 63), 128 ||| ((n >>> 6) &&& 63),
     128 ||| (n &&& 63)]

/-- Python `str.encode()`: UTF-8 bytes of a string. -/
def utf8Encode (s : String) : List Nat := s.data.flatMap utf8EncodeChar

/-- Embeds `get_instruction_discriminator` from `src/util.py`: the first 8 bytes of
`sha256("<scope>:<instruction_name>")`. -/
def get_instruction_discriminator (instruction_name : String)
    (scope : String := "global") : List Nat :=
  (sha256 (utf8Encode (scope ++ ":" ++ instruction_name))).take 8

/-- Python dict assignment `d[k] = v`: update in place if the key exists
(keeping its position), otherwise append. -/
def dictSet (d : List (String × String)) (k v : String) :
    List (String × String) :=
  match d with
  | [] => [(k, v)]
  | (k0, v0) :: rest =>
      if k0 = k then (k0, v) :: rest else (k0, v0) :: dictSet rest k v

/-- The nested result dict of `create_discriminators`, with its two fixed
keys `"func_disc"` and `"disc_func"` as structure fields. -/
structure Discriminators where
  func_disc : List (String × String)
  disc_func : List (String × String)
deriving DecidableEq, Repr

/-- Embeds `create_discriminators` from `src/util.py`: fold over the method names,
recording `name ↦ hex(disc)` and `hex(disc) ↦ name`. -/
def create_discriminators (method_names : List String)
    (scope : String := "global") : Discriminators :=
  method_names.foldl (fun result method_name =>
    let disc := bytesHex (get_instruction_discriminator method_name scope)
    { func_disc := dictSet result.func_disc method_name disc,
      disc_func := dictSet result.disc_func disc method_name })
    ⟨[], []⟩

/-- Hex string of a discriminator, as `create_discriminators` stores it:
Python `get_instruction_discriminator(name, scope).hex()`. -/
def discHex (instruction_name : String) (scope : String := "global") : String :=
  bytesHex (get_instruction_discriminator instruction_name scope)

/-- One iteration of the `create_discriminators` loop body. -/
def discStep (scope : String) (result : Discriminators) (method_name : String) :
    Discriminators :=
  { func_disc := dictSet result.func_disc method_name (discHex method_name scope),
    disc_func := dictSet result.disc_func (discHex method_name scope) method_name }

/-! ### Helper lemmas -/

theorem intFromBytesLE_append (xs : List Nat) (b : Nat) :
    intFromBytesLE (xs ++ [b]) = intFromBytesLE xs + b * 256 ^ xs.length := by
  induction xs with
  | nil => simp [intFromBytesLE]
  | cons x xs ih =>
    calc intFromBytesLE ((x :: xs) ++ [b])
        = x + 256 * intFromBytesLE (xs ++ [b]) := rfl
      _ = x + 256 * (intFromBytesLE xs + b * 256 ^ xs.length) := by rw [ih]
      _ = (x + 256 * intFromBytesLE xs) + b * 256 ^ (x :: xs).length := by
          rw [List.length_cons]; ring
      _ = intFromBytesLE (x :: xs) + b * 256 ^ (x :: xs).length := rfl

theorem hexDigitChar_mem (n : Nat) : hexDigitChar n ∈ hexDigits := by
  unfold hexDigitChar
  rcases Nat.lt_or_ge n 16 with h | h
  · interval_cases n <;> decide
  · rw [List.getD_eq_default]
    · decide
    · simpa [hexDigits] using h

theorem bytesHex_chars (data : List Nat) :
    ∀ c ∈ (bytesHex data).data, c ∈ hexDigits := by
  intro c hc
  have hc2 : c ∈ data.flatMap byteHexChars := hc
  rw [List.mem_flatMap] at hc2
  obtain ⟨b, _, hcb⟩ := hc2
  simp only [byteHexChars, List.mem_cons, List.not_mem_nil, or_false] at hcb
  rcases hcb with rfl | rfl
  · exact hexDigitChar_mem _
  · exact hexDigitChar_mem _

/-- If `table.lookup op` is empty while `table.lookup k` is populated, the
opcodes differ. -/
theorem lookup_none_ne (table : List (Nat × String)) (op k : Nat)
    (h : table.lookup op = Option.none) (hs : (table.lookup k).isSome = true) :
    op ≠ k := by
  rintro rfl
  rw [h] at hs
  exact Bool.noConfusion hs

/-! ### C1 -/

/-- C1: the claim says every registered program returns a Malformed result on
buffers shorter than its opcode field, CPMM included. The code instead
raises: after the `len(data) < 1` guard, `decode_raydium_cpmm_instruction`
reads `data[8]`, so every buffer of 1 to 8 bytes raises `IndexError` rather
than returning the `{"error": ...}` dict. This theorem evaluates the code on
that failing range. -/
theorem c1_cpmm_short_buffer_raises (data : List Nat) (hne : data ≠ [])
    (hlen : data.length ≤ 8) :
    decode_raydium_cpmm_instruction data = .exn "IndexError" := by
  cases data with
  | nil => exact absurd rfl hne
  | cons b rest =>
    simp only [decode_raydium_cpmm_instruction]
    rw [List.getElem?_eq_none hlen]

theorem c1_cpmm_short_buffer_raises_witness :
    [(0 : Nat)] ≠ ([] : List Nat) ∧ [(0 : Nat)].length ≤ 8 ∧
    decode_raydium_cpmm_instruction [0] = .exn "IndexError" :=
  ⟨by decide, by decide, c1_cpmm_short_buffer_raises [0] (by decide) (by decide)⟩

/-! ### C2 -/

/-- C2 counterexample: the claim says the token decoder degrades to the
raw-hex fallback on a Transfer buffer of total length 2..8. On `[3, 1]` the
code instead returns a field mapping whose `amount` was decoded from the
single available byte, and not the raw-hex dict the claim predicts. -/
theorem c2_allOrNothing_counterexample :
    decode_token_instruction [3, 1] =
      .ok [("type", .str "Transfer"), ("amount", .int 1)] ∧
    decode_token_instruction [3, 1] ≠
      .ok [("type", .str "Transfer"), ("raw_data", .str (bytesHex [3, 1]))] := by
  constructor
  · rfl
  · decide

/-- C2 amended: field extraction is not all-or-nothing. On a buffer with
byte 0 equal to 3 and total length between 2 and 8, the token decoder
returns a `Transfer` field mapping whose `amount` is decoded little-endian
from the available bytes after the opcode (Python slicing clamps), and the
result is not the raw-hex fallback. -/
theorem c2_truncated_transfer_partial_amount (rest : List Nat)
    (h1 : 1 ≤ rest.length) (h7 : rest.length ≤ 7) :
    decode_token_instruction (3 :: rest) =
      .ok [("type", .str "Transfer"), ("amount", .int (intFromBytesLE rest))] ∧
    decode_token_instruction (3 :: rest) ≠
      .ok [("type", .str "Transfer"), ("raw_data", .str (bytesHex (3 :: rest)))] := by
  have hslice : pySlice (3 :: rest) 1 9 = rest := by
    simp only [pySlice, List.drop_succ_cons, List.drop_zero]
    exact List.take_of_length_le (by omega)
  constructor
  · simp [decode_token_instruction, hslice, tableGet, TOKEN_INSTRUCTIONS, List.lookup]
  · simp [decode_token_instruction, hslice, tableGet, TOKEN_INSTRUCTIONS, List.lookup]

theorem c2_truncated_transfer_partial_amount_witness :
    1 ≤ [(1 : Nat)].length ∧ [(1 : Nat)].length ≤ 7 ∧
    decode_token_instruction [3, 1] =
      .ok [("type", .str "Transfer"), ("amount", .int (intFromBytesLE [1]))] :=
  ⟨by decide, by decide,
    (c2_truncated_transfer_partial_amount [1] (by decide) (by decide)).1⟩

/-! ### C8 -/

/-- C8: the two token-program decoders are extensionally equal — in the
source they are verbatim copies, so the embedded functions agree on every
buffer. -/
theorem c8_token_decoders_equal (data : List Nat) :
    decode_token_instruction data = decode_token_2022_instruction data := rfl

/-! ### C10 -/

/-- C10: on a buffer whose first byte is 1, the token decoder returns
`InitializeAccount`, with `owner` explicitly `None` when the buffer has at
most 32 bytes, and `owner` the hex of bytes 1..33 when it has at least 33. -/
theorem c10_initialize_account_owner (data : List Nat)
    (h : data[0]? = some 1) :
    (data.length ≤ 32 →
      decode_token_instruction data =
        .ok [("type", .str "InitializeAccount"), ("owner", Value.none)]) ∧
    (33 ≤ data.length →
      decode_token_instruction data =
        .ok [("type", .str "InitializeAccount"),
             ("owner", .str (bytesHex (pySlice data 1 33)))]) := by
  cases data with
  | nil => simp at h
  | cons b rest =>
    have hb : b = 1 := by simpa using h
    subst hb
    constructor
    · intro hle
      simp only [List.length_cons] at hle
      simp [decode_token_instruction, tableGet, TOKEN_INSTRUCTIONS, List.lookup]
      omega
    · intro hge
      simp only [List.length_cons] at hge
      simp [decode_token_instruction, tableGet, TOKEN_INSTRUCTIONS, List.lookup]
      omega

theorem c10_initialize_account_owner_witness :
    ([1, 7] : List Nat)[0]? = some 1 ∧ ([1, 7] : List Nat).length ≤ 32 ∧
    decode_token_instruction [1, 7] =
      .ok [("type", .str "InitializeAccount"), ("owner", Value.none)] :=
  ⟨by decide, by decide,
    (c10_initialize_account_owner [1, 7] (by decide)).1 (by decide)⟩

/-! ### C3 -/

/-- C3: for any program id outside the six registered ones,
`decode_instruction_data` returns the unknown-program dict whose raw-hex
field is the lower-case hex of the buffer; the empty buffer hexes to the
empty string, and every character produced is a lower-case hex digit. -/
theorem c3_unknown_program_fallback (program_id : String) (data : List Nat)
    (h1 : program_id ≠ SYSTEM_PROGRAM_ID) (h2 : program_id ≠ TOKEN_PROGRAM_ID)
    (h3 : program_id ≠ TOKEN_2022_PROGRAM_ID)
    (h4 : program_id ≠ RAYDIUM_AMM_V4_PROGRAM_ID)
    (h5 : program_id ≠ RAYDIUM_CPMM_PROGRAM_ID)
    (h6 : program_id ≠ RAYDIUM_CLMM_PROGRAM_ID) :
    decode_instruction_data program_id data =
      .ok [("program", .str program_id), ("raw_data", .str (bytesHex data))] ∧
    bytesHex [] = "" ∧
    ∀ c ∈ (bytesHex data).data, c ∈ hexDigits := by
  refine ⟨?_, rfl, bytesHex_chars data⟩
  simp [decode_instruction_data, h1, h2, h3, h4, h5, h6]

theorem c3_unknown_program_fallback_witness :
    "NotARegisteredProgram" ≠ SYSTEM_PROGRAM_ID ∧
    decode_instruction_data "NotARegisteredProgram" [0, 255] =
      .ok [("program", .str "NotARegisteredProgram"),
           ("raw_data", .str (bytesHex [0, 255]))] ∧
    decode_instruction_data "NotARegisteredProgram" [] =
      .ok [("program", .str "NotARegisteredProgram"), ("raw_data", .str "")] :=
  ⟨by decide,
   (c3_unknown_program_fallback "NotARegisteredProgram" [0, 255] (by decide)
      (by decide) (by decide) (by decide) (by decide) (by decide)).1,
   by
     have h := (c3_unknown_program_fallback "NotARegisteredProgram" [] (by decide)
       (by decide) (by decide) (by decide) (by decide) (by decide)).1
     simpa using h⟩

/-! ### C4 -/

/-- C4: the CPMM decoder reads its opcode from byte index 8, not byte 0: on
any buffer of length at least 9 whose byte 8 is 5 — whatever byte 0 is —
the rule for opcode 5 (`Initialize`) is selected. -/
theorem c4_cpmm_opcode_at_offset8 (data : List Nat) (hlen : 9 ≤ data.length)
    (h8 : data[8]? = some 5) :
    decode_raydium_cpmm_instruction data =
      .ok [("type", .str "Initialize"),
           ("init_amount_0", .int (intFromBytesLE (pySlice data 1 9))),
           ("init_amount_1", .int (intFromBytesLE (pySlice data 9 17))),
           ("open_time", .int (intFromBytesLE (pySlice data 17 25)))] := by
  cases data with
  | nil => simp at h8
  | cons b rest =>
    simp only [decode_raydium_cpmm_instruction]
    rw [h8]
    rfl

theorem c4_cpmm_opcode_at_offset8_witness :
    9 ≤ ([7, 0, 0, 0, 0, 0, 0, 0, 5] : List Nat).length ∧
    ([7, 0, 0, 0, 0, 0, 0, 0, 5] : List Nat)[8]? = some 5 ∧
    decode_raydium_cpmm_instruction [7, 0, 0, 0, 0, 0, 0, 0, 5] =
      .ok [("type", .str "Initialize"),
           ("init_amount_0",
             .int (intFromBytesLE (pySlice [7, 0, 0, 0, 0, 0, 0, 0, 5] 1 9))),
           ("init_amount_1",
             .int (intFromBytesLE (pySlice [7, 0, 0, 0, 0, 0, 0, 0, 5] 9 17))),
           ("open_time",
             .int (intFromBytesLE (pySlice [7, 0, 0, 0, 0, 0, 0, 0, 5] 17 25)))] :=
  ⟨by decide, by decide,
   c4_cpmm_opcode_at_offset8 [7, 0, 0, 0, 0, 0, 0, 0, 5] (by decide) (by decide)⟩

/-! ### C6 -/

/-- C6: happy-path decoding. The token decoder on the 9 exact bytes
`03 E8 03 00 00 00 00 00 00` yields `Transfer` with amount 1000; the system
decoder on any buffer of length at least 12 whose leading 4-byte
little-endian opcode is 2 yields `Transfer` carrying the raw lamports from
bytes 4..12 and the value scaled by 10^9 (Python float division modelled as
exact rational division). -/
theorem c6_happy_path_transfer :
    decode_token_instruction [3, 0xE8, 3, 0, 0, 0, 0, 0, 0] =
      .ok [("type", .str "Transfer"), ("amount", .int 1000)] ∧
    ∀ data : List Nat, 12 ≤ data.length →
      intFromBytesLE (pySlice data 0 4) = 2 →
      decode_system_instruction data =
        .ok [("type", .str "Transfer"),
             ("lamports", .int (intFromBytesLE (pySlice data 4 12))),
             ("sol", .rat ((intFromBytesLE (pySlice data 4 12) : ℚ) / 1000000000))] := by
  constructor
  · rfl
  · intro data hlen h2
    simp [decode_system_instruction, h2, tableGet, SYSTEM_INSTRUCTIONS, List.lookup]
    omega

theorem c6_happy_path_transfer_witness :
    12 ≤ ([2, 0, 0, 0, 232, 3, 0, 0, 0, 0, 0, 0] : List Nat).length ∧
    intFromBytesLE (pySlice [2, 0, 0, 0, 232, 3, 0, 0, 0, 0, 0, 0] 0 4) = 2 ∧
    decode_system_instruction [2, 0, 0, 0, 232, 3, 0, 0, 0, 0, 0, 0] =
      .ok [("type", .str "Transfer"),
           ("lamports",
             .int (intFromBytesLE (pySlice [2, 0, 0, 0, 232, 3, 0, 0, 0, 0, 0, 0] 4 12))),
           ("sol",
             .rat ((intFromBytesLE (pySlice [2, 0, 0, 0, 232, 3, 0, 0, 0, 0, 0, 0] 4 12) : ℚ) /
               1000000000))] :=
  ⟨by decide, by decide,
   c6_happy_path_transfer.2 [2, 0, 0, 0, 232, 3, 0, 0, 0, 0, 0, 0]
     (by decide) (by decide)⟩

/-! ### C9 -/

/-- C9: for the CPMM `Deposit` opcode (byte 8 equal to 6, length at least
25), `lp_token_amount` is decoded from bytes 1..9, a range that includes
the opcode byte at index 8 as its most significant byte: the decoded value
equals the little-endian value of bytes 1..8 plus `6 * 2^56`. -/
theorem c9_cpmm_deposit_field_overlaps_opcode (data : List Nat)
    (hlen : 25 ≤ data.length) (h8 : data[8]? = some 6) :
    decode_raydium_cpmm_instruction data =
      .ok [("type", .str "Deposit"),
           ("lp_token_amount", .int (intFromBytesLE (pySlice data 1 9))),
           ("maximum_token_0_amount", .int (intFromBytesLE (pySlice data 9 17))),
           ("maximum_token_1_amount", .int (intFromBytesLE (pySlice data 17 25)))] ∧
    intFromBytesLE (pySlice data 1 9) =
      intFromBytesLE (pySlice data 1 8) + 6 * 2 ^ 56 := by
  constructor
  · cases data with
    | nil => simp at h8
    | cons b rest =>
      simp only [decode_raydium_cpmm_instruction]
      rw [h8]
      rfl
  · have hd7 : (data.drop 1)[7]? = some 6 := by
      rw [List.getElem?_drop]
      exact h8
    have htake : (data.drop 1).take 8 = (data.drop 1).take 7 ++ [6] := by
      rw [List.take_succ, hd7]
      rfl
    have hlen7 : ((data.drop 1).take 7).length = 7 := by
      rw [List.length_take, List.length_drop]
      omega
    have : intFromBytesLE ((data.drop 1).take 8) =
        intFromBytesLE ((data.drop 1).take 7) + 6 * 256 ^ 7 := by
      rw [htake, intFromBytesLE_append, hlen7]
    calc intFromBytesLE (pySlice data 1 9)
        = intFromBytesLE ((data.drop 1).take 8) := rfl
      _ = intFromBytesLE ((data.drop 1).take 7) + 6 * 256 ^ 7 := this
      _ = intFromBytesLE (pySlice data 1 8) + 6 * 2 ^ 56 := by norm_num [pySlice]

theorem c9_cpmm_deposit_field_overlaps_opcode_witness :
    25 ≤ (List.replicate 8 (0 : Nat) ++ 6 :: List.replicate 16 0).length ∧
    (List.replicate 8 (0 : Nat) ++ 6 :: List.replicate 16 0)[8]? = some 6 ∧
    intFromBytesLE (pySlice (List.replicate 8 (0 : Nat) ++ 6 :: List.replicate 16 0) 1 9) =
      intFromBytesLE (pySlice (List.replicate 8 (0 : Nat) ++ 6 :: List.replicate 16 0) 1 8) +
        6 * 2 ^ 56 :=
  ⟨by decide, by decide,
   (c9_cpmm_deposit_field_overlaps_opcode
     (List.replicate 8 (0 : Nat) ++ 6 :: List.replicate 16 0)
     (by decide) (by decide)).2⟩

/-! ### C5 -/

theorem dispatch_system (data : List Nat) :
    decode_instruction_data SYSTEM_PROGRAM_ID data = decode_system_instruction data := rfl

theorem dispatch_token (data : List Nat) :
    decode_instruction_data TOKEN_PROGRAM_ID data = decode_token_instruction data := by
  simp [decode_instruction_data, SYSTEM_PROGRAM_ID, TOKEN_PROGRAM_ID,
    TOKEN_2022_PROGRAM_ID, RAYDIUM_AMM_V4_PROGRAM_ID, RAYDIUM_CPMM_PROGRAM_ID,
    RAYDIUM_CLMM_PROGRAM_ID]

theorem dispatch_token_2022 (data : List Nat) :
    decode_instruction_data TOKEN_2022_PROGRAM_ID data =
      decode_token_2022_instruction data := by
  simp [decode_instruction_data, SYSTEM_PROGRAM_ID, TOKEN_PROGRAM_ID,
    TOKEN_2022_PROGRAM_ID, RAYDIUM_AMM_V4_PROGRAM_ID, RAYDIUM_CPMM_PROGRAM_ID,
    RAYDIUM_CLMM_PROGRAM_ID]

theorem dispatch_amm (data : List Nat) :
    decode_instruction_data RAYDIUM_AMM_V4_PROGRAM_ID data =
      decode_raydium_amm_instruction data := by
  simp [decode_instruction_data, SYSTEM_PROGRAM_ID, TOKEN_PROGRAM_ID,
    TOKEN_2022_PROGRAM_ID, RAYDIUM_AMM_V4_PROGRAM_ID, RAYDIUM_CPMM_PROGRAM_ID,
    RAYDIUM_CLMM_PROGRAM_ID]

theorem dispatch_cpmm (data : List Nat) :
    decode_instruction_data RAYDIUM_CPMM_PROGRAM_ID data =
      decode_raydium_cpmm_instruction data := by
  simp [decode_instruction_data, SYSTEM_PROGRAM_ID, TOKEN_PROGRAM_ID,
    TOKEN_2022_PROGRAM_ID, RAYDIUM_AMM_V4_PROGRAM_ID, RAYDIUM_CPMM_PROGRAM_ID,
    RAYDIUM_CLMM_PROGRAM_ID]

theorem dispatch_clmm (data : List Nat) :
    decode_instruction_data RAYDIUM_CLMM_PROGRAM_ID data =
      decode_raydium_clmm_instruction data := by
  simp [decode_instruction_data, SYSTEM_PROGRAM_ID, TOKEN_PROGRAM_ID,
    TOKEN_2022_PROGRAM_ID, RAYDIUM_AMM_V4_PROGRAM_ID, RAYDIUM_CPMM_PROGRAM_ID,
    RAYDIUM_CLMM_PROGRAM_ID]

theorem system_unknown_opcode (data : List Nat) (hlen : 4 ≤ data.length)
    (hl : SYSTEM_INSTRUCTIONS.lookup (intFromBytesLE (pySlice data 0 4)) = Option.none) :
    decode_system_instruction data =
      .ok [("type",
             .str ("Unknown(" ++ toString (intFromBytesLE (pySlice data 0 4)) ++ ")")),
           ("raw_data", .str (bytesHex data))] := by
  have hlt : ¬ data.length < 4 := by omega
  have hne2 : intFromBytesLE (pySlice data 0 4) ≠ 2 :=
    lookup_none_ne _ _ 2 hl (by decide)
  simp [decode_system_instruction, hlt, tableGet, hl, hne2]

theorem token_unknown_opcode (data : List Nat) (op : Nat) (h0 : data[0]? = some op)
    (hl : TOKEN_INSTRUCTIONS.lookup op = Option.none) :
    decode_token_instruction data =
      .ok [("type", .str ("Unknown(" ++ toString op ++ ")")),
           ("raw_data", .str (bytesHex data))] := by
  cases data with
  | nil => simp at h0
  | cons b rest =>
    have hb : b = op := by simpa using h0
    subst hb
    have hne1 : b ≠ 1 := lookup_none_ne _ _ 1 hl (by decide)
    have hne3 : b ≠ 3 := lookup_none_ne _ _ 3 hl (by decide)
    simp [decode_token_instruction, tableGet, hl, hne1, hne3]

theorem amm_unknown_opcode (data : List Nat) (op : Nat) (h0 : data[0]? = some op)
    (hl : RAYDIUM_AMM_INSTRUCTIONS.lookup op = Option.none) :
    decode_raydium_amm_instruction data =
      .ok [("type", .str ("Unknown(" ++ toString op ++ ")")),
           ("raw_data", .str (bytesHex data))] := by
  cases data with
  | nil => simp at h0
  | cons b rest =>
    have hb : b = op := by simpa using h0
    subst hb
    have hne2 : b ≠ 2 := lookup_none_ne _ _ 2 hl (by decide)
    have hne3 : b ≠ 3 := lookup_none_ne _ _ 3 hl (by decide)
    have hne4 : b ≠ 4 := lookup_none_ne _ _ 4 hl (by decide)
    simp [decode_raydium_amm_instruction, tableGet, hl, hne2, hne3, hne4]

theorem clmm_unknown_opcode (data : List Nat) (op : Nat) (h0 : data[0]? = some op)
    (hl : RAYDIUM_CLMM_INSTRUCTIONS.lookup op = Option.none) :
    decode_raydium_clmm_instruction data =
      .ok [("type", .str ("Unknown(" ++ toString op ++ ")")),
           ("raw_data", .str (bytesHex data))] := by
  cases data with
  | nil => simp at h0
  | cons b rest =>
    have hb : b = op := by simpa using h0
    subst hb
    have hne3 : b ≠ 3 := lookup_none_ne _ _ 3 hl (by decide)
    simp [decode_raydium_clmm_instruction, tableGet, hl, hne3]

theorem cpmm_unknown_opcode (data : List Nat) (op : Nat) (hop : data[8]? = some op)
    (hl : RAYDIUM_CPMM_INSTRUCTIONS.lookup op = Option.none) :
    decode_raydium_cpmm_instruction data =
      .ok [("type", .str ("Unknown(" ++ toString op ++ ")")),
           ("raw_data", .str (bytesHex data))] := by
  cases data with
  | nil => simp at hop
  | cons b rest =>
    have hne5 : op ≠ 5 := lookup_none_ne _ _ 5 hl (by decide)
    have hne6 : op ≠ 6 := lookup_none_ne _ _ 6 hl (by decide)
    have hne7 : op ≠ 7 := lookup_none_ne _ _ 7 hl (by decide)
    have hne8 : op ≠ 8 := lookup_none_ne _ _ 8 hl (by decide)
    have hne9 : op ≠ 9 := lookup_none_ne _ _ 9 hl (by decide)
    simp only [decode_raydium_cpmm_instruction]
    rw [hop]
    simp [tableGet, hl, hne5, hne6, hne7, hne8, hne9]

/-- C5: for each registered program, a buffer long enough for the opcode
field whose decoded opcode is not in the program's table yields the
program-scoped result labelled exactly `"Unknown(<opcode>)"` (with the
decimal opcode read from the declared offset) plus raw hex — never the
unknown-program fallback dict. -/
theorem c5_unknown_opcode_label :
    (∀ data : List Nat, 4 ≤ data.length →
      SYSTEM_INSTRUCTIONS.lookup (intFromBytesLE (pySlice data 0 4)) = Option.none →
      decode_instruction_data SYSTEM_PROGRAM_ID data =
        .ok [("type",
               .str ("Unknown(" ++ toString (intFromBytesLE (pySlice data 0 4)) ++ ")")),
             ("raw_data", .str (bytesHex data))]) ∧
    (∀ (data : List Nat) (op : Nat), data[0]? = some op →
      TOKEN_INSTRUCTIONS.lookup op = Option.none →
      decode_instruction_data TOKEN_PROGRAM_ID data =
        .ok [("type", .str ("Unknown(" ++ toString op ++ ")")),
             ("raw_data", .str (bytesHex data))]) ∧
    (∀ (data : List Nat) (op : Nat), data[0]? = some op →
      TOKEN_INSTRUCTIONS.lookup op = Option.none →
      decode_instruction_data TOKEN_2022_PROGRAM_ID data =
        .ok [("type", .str ("Unknown(" ++ toString op ++ ")")),
             ("raw_data", .str (bytesHex data))]) ∧
    (∀ (data : List Nat) (op : Nat), data[0]? = some op →
      RAYDIUM_AMM_INSTRUCTIONS.lookup op = Option.none →
      decode_instruction_data RAYDIUM_AMM_V4_PROGRAM_ID data =
        .ok [("type", .str ("Unknown(" ++ toString op ++ ")")),
             ("raw_data", .str (bytesHex data))]) ∧
    (∀ (data : List Nat) (op : Nat), data[0]? = some op →
      RAYDIUM_CLMM_INSTRUCTIONS.lookup op = Option.none →
      decode_instruction_data RAYDIUM_CLMM_PROGRAM_ID data =
        .ok [("type", .str ("Unknown(" ++ toString op ++ ")")),
             ("raw_data", .str (bytesHex data))]) ∧
    (∀ (data : List Nat) (op : Nat), data[8]? = some op →
      RAYDIUM_CPMM_INSTRUCTIONS.lookup op = Option.none →
      decode_instruction_data RAYDIUM_CPMM_PROGRAM_ID data =
        .ok [("type", .str ("Unknown(" ++ toString op ++ ")")),
             ("raw_data", .str (bytesHex data))]) := by
  refine ⟨?_, ?_, ?_, ?_, ?_, ?_⟩
  · intro data hlen hl
    rw [dispatch_system]
    exact system_unknown_opcode data hlen hl
  · intro data op h0 hl
    rw [dispatch_token]
    exact token_unknown_opcode data op h0 hl
  · intro data op h0 hl
    rw [dispatch_token_2022]
    exact token_unknown_opcode data op h0 hl
  · intro data op h0 hl
    rw [dispatch_amm]
    exact amm_unknown_opcode data op h0 hl
  · intro data op h0 hl
    rw [dispatch_clmm]
    exact clmm_unknown_opcode data op h0 hl
  · intro data op hop hl
    rw [dispatch_cpmm]
    exact cpmm_unknown_opcode data op hop hl

theorem c5_unknown_opcode_label_witness :
    (4 ≤ ([99, 0, 0, 0] : List Nat).length ∧
      decode_instruction_data SYSTEM_PROGRAM_ID [99, 0, 0, 0] =
        .ok [("type",
               .str ("Unknown(" ++ toString (intFromBytesLE (pySlice [99, 0, 0, 0] 0 4)) ++ ")")),
             ("raw_data", .str (bytesHex [99, 0, 0, 0]))]) ∧
    decode_instruction_data TOKEN_PROGRAM_ID [99] =
      .ok [("type", .str ("Unknown(" ++ toString (99 : Nat) ++ ")")),
           ("raw_data", .str (bytesHex [99]))] ∧
    decode_instruction_data TOKEN_2022_PROGRAM_ID [99] =
      .ok [("type", .str ("Unknown(" ++ toString (99 : Nat) ++ ")")),
           ("raw_data", .str (bytesHex [99]))] ∧
    decode_instruction_data RAYDIUM_AMM_V4_PROGRAM_ID [99] =
      .ok [("type", .str ("Unknown(" ++ toString (99 : Nat) ++ ")")),
           ("raw_data", .str (bytesHex [99]))] ∧
    decode_instruction_data RAYDIUM_CLMM_PROGRAM_ID [99] =
      .ok [("type", .str ("Unknown(" ++ toString (99 : Nat) ++ ")")),
           ("raw_data", .str (bytesHex [99]))] ∧
    decode_instruction_data RAYDIUM_CPMM_PROGRAM_ID [0, 0, 0, 0, 0, 0, 0, 0, 99] =
      .ok [("type", .str ("Unknown(" ++ toString (99 : Nat) ++ ")")),
           ("raw_data", .str (bytesHex [0, 0, 0, 0, 0, 0, 0, 0, 99]))] :=
  ⟨⟨by decide, c5_unknown_opcode_label.1 [99, 0, 0, 0] (by decide) (by decide)⟩,
   c5_unknown_opcode_label.2.1 [99] 99 (by decide) (by decide),
   c5_unknown_opcode_label.2.2.1 [99] 99 (by decide) (by decide),
   c5_unknown_opcode_label.2.2.2.1 [99] 99 (by decide) (by decide),
   c5_unknown_opcode_label.2.2.2.2.1 [99] 99 (by decide) (by decide),
   c5_unknown_opcode_label.2.2.2.2.2 [0, 0, 0, 0, 0, 0, 0, 0, 99] 99
     (by decide) (by decide)⟩

/-! ### C7: supporting lemmas -/

theorem natToBytesBE_length (n : Nat) : ∀ v, (natToBytesBE n v).length = n := by
  induction n with
  | zero => intro v; rfl
  | succ n ih =>
    intro v
    simp [natToBytesBE, ih]

theorem sha256Round_length (st : List Nat) (kw : Nat × Nat) :
    (sha256Round st kw).length = st.length := by
  unfold sha256Round
  split
  · simp_all
  · rfl

theorem foldl_sha256Round_length (l : List (Nat × Nat)) :
    ∀ st : List Nat, (l.foldl sha256Round st).length = st.length := by
  induction l with
  | nil => intro st; rfl
  | cons kw l ih =>
    intro st
    rw [List.foldl_cons, ih, sha256Round_length]

theorem sha256Compress_length (hs block : List Nat) :
    (sha256Compress hs block).length = hs.length := by
  unfold sha256Compress
  rw [List.length_zipWith, foldl_sha256Round_length]
  exact Nat.min_self _

theorem foldl_sha256Compress_length (blocks : List (List Nat)) :
    ∀ hs : List Nat, (blocks.foldl sha256Compress hs).length = hs.length := by
  induction blocks with
  | nil => intro hs; rfl
  | cons blk blocks ih =>
    intro hs
    rw [List.foldl_cons, ih, sha256Compress_length]

theorem flatMap_natToBytesBE4_length (l : List Nat) :
    (l.flatMap (natToBytesBE 4)).length = 4 * l.length := by
  induction l with
  | nil => rfl
  | cons x l ih =>
    simp only [List.flatMap_cons, List.length_append, natToBytesBE_length, ih,
      List.length_cons]
    ring

/-- The SHA-256 digest is always 32 bytes. -/
theorem sha256_length (msg : List Nat) : (sha256 msg).length = 32 := by
  unfold sha256
  rw [flatMap_natToBytesBE4_length, foldl_sha256Compress_length]
  rfl

/-- Every discriminator is 8 bytes long. -/
theorem get_instruction_discriminator_length (instruction_name scope : String) :
    (get_instruction_discriminator instruction_name scope).length = 8 := by
  unfold get_instruction_discriminator
  rw [List.length_take, sha256_length]
  decide

theorem dictSet_fst_of_not_mem (d : List (String × String)) (k v : String)
    (h : k ∉ d.map Prod.fst) :
    (dictSet d k v).map Prod.fst = d.map Prod.fst ++ [k] := by
  induction d with
  | nil => rfl
  | cons p rest ih =>
    obtain ⟨k0, v0⟩ := p
    simp only [List.map_cons, List.mem_cons, not_or] at h
    obtain ⟨hk0, hrest⟩ := h
    simp only [dictSet, if_neg (Ne.symm hk0), List.map_cons, ih hrest,
      List.cons_append]

theorem lookup_dictSet_self (d : List (String × String)) (k v : String) :
    (dictSet d k v).lookup k = some v := by
  induction d with
  | nil => simp [dictSet, List.lookup]
  | cons p rest ih =>
    obtain ⟨k0, v0⟩ := p
    by_cases hk : k0 = k
    · subst hk
      simp [dictSet, List.lookup_cons]
    · simp [dictSet, if_neg hk, List.lookup_cons,
        beq_false_of_ne (Ne.symm hk), ih]

theorem lookup_dictSet_ne (d : List (String × String)) (k k2 v : String)
    (h : k ≠ k2) :
    (dictSet d k v).lookup k2 = d.lookup k2 := by
  induction d with
  | nil => simp [dictSet, List.lookup_cons, beq_false_of_ne (Ne.symm h)]
  | cons p rest ih =>
    obtain ⟨k0, v0⟩ := p
    by_cases hk : k0 = k
    · subst hk
      simp [dictSet, List.lookup_cons, beq_false_of_ne (Ne.symm h)]
    · simp [dictSet, if_neg hk, List.lookup_cons, ih]

theorem foldl_discStep_lookup_preserved (scope : String) (names : List String) :
    ∀ (acc : Discriminators) (k : String),
      (∀ n ∈ names, discHex n scope ≠ k) →
      (names.foldl (discStep scope) acc).disc_func.lookup k =
        acc.disc_func.lookup k := by
  induction names with
  | nil => intro acc k _; rfl
  | cons n ns ih =>
    intro acc k h
    rw [List.foldl_cons, ih _ _ (fun m hm => h m (List.mem_cons_of_mem _ hm))]
    exact lookup_dictSet_ne _ _ _ _ (h n (List.mem_cons_self _ _))

theorem foldl_discStep_spec (scope : String) (names : List String) :
    ∀ acc : Discriminators,
      names.Nodup →
      (names.map (fun n => discHex n scope)).Nodup →
      (∀ n ∈ names, n ∉ acc.func_disc.map Prod.fst) →
      (∀ n ∈ names, discHex n scope ∉ acc.disc_func.map Prod.fst) →
      ((names.foldl (discStep scope) acc).func_disc.map Prod.fst
          = acc.func_disc.map Prod.fst ++ names) ∧
      ((names.foldl (discStep scope) acc).disc_func.map Prod.fst
          = acc.disc_func.map Prod.fst ++ names.map (fun n => discHex n scope)) ∧
      (∀ n ∈ names,
        (names.foldl (discStep scope) acc).disc_func.lookup (discHex n scope)
          = some n) := by
  induction names with
  | nil =>
    intro acc _ _ _ _
    exact ⟨by simp, by simp, by simp⟩
  | cons n ns ih =>
    intro acc hnd hmd hf hd
    obtain ⟨hn_nin, hns_nd⟩ := List.nodup_cons.mp hnd
    simp only [List.map_cons] at hmd
    obtain ⟨hdn_nin, hmds⟩ := List.nodup_cons.mp hmd
    have hfn : n ∉ acc.func_disc.map Prod.fst := hf n (List.mem_cons_self _ _)
    have hdn : discHex n scope ∉ acc.disc_func.map Prod.fst :=
      hd n (List.mem_cons_self _ _)
    have hkeysf : (discStep scope acc n).func_disc.map Prod.fst
        = acc.func_disc.map Prod.fst ++ [n] := dictSet_fst_of_not_mem _ _ _ hfn
    have hkeysd : (discStep scope acc n).disc_func.map Prod.fst
        = acc.disc_func.map Prod.fst ++ [discHex n scope] :=
      dictSet_fst_of_not_mem _ _ _ hdn
    have hf2 : ∀ m ∈ ns, m ∉ (discStep scope acc n).func_disc.map Prod.fst := by
      intro m hm
      rw [hkeysf]
      simp only [List.mem_append, List.mem_singleton, not_or]
      exact ⟨hf m (List.mem_cons_of_mem _ hm), fun he => hn_nin (he ▸ hm)⟩
    have hd2 : ∀ m ∈ ns,
        discHex m scope ∉ (discStep scope acc n).disc_func.map Prod.fst := by
      intro m hm
      rw [hkeysd]
      simp only [List.mem_append, List.mem_singleton, not_or]
      refine ⟨hd m (List.mem_cons_of_mem _ hm), fun he => hdn_nin ?_⟩
      rw [← he]
      exact List.mem_map_of_mem _ hm
    obtain ⟨ih1, ih2, ih3⟩ := ih (discStep scope acc n) hns_nd hmds hf2 hd2
    refine ⟨?_, ?_, ?_⟩
    · rw [List.foldl_cons, ih1, hkeysf, List.append_assoc]
      rfl
    · rw [List.foldl_cons, ih2, hkeysd, List.append_assoc, List.map_cons]
      rfl
    · intro m hm
      rw [List.foldl_cons]
      rcases List.mem_cons.mp hm with rfl | hm2
      · have hpres : ∀ n2 ∈ ns, discHex n2 scope ≠ discHex m scope := by
          intro n2 hn2 heq
          exact hdn_nin (heq ▸ List.mem_map_of_mem _ hn2)
        rw [foldl_discStep_lookup_preserved scope ns (discStep scope acc m)
          (discHex m scope) hpres]
        exact lookup_dictSet_self _ _ _
      · exact ih3 m hm2

/-! ### C7 -/

/-- C7: the discriminator is exactly the first 8 bytes of the SHA-256 hash
of the UTF-8 string `"<scope>:<instruction_name>"` — a pure function, so
deterministic — and always 8 bytes long; and `create_discriminators`, on N
distinct method names whose hex discriminators are also distinct, builds a
forward map and an inverse map of exactly N entries each, the inverse map
sending each name's discriminator back to the name. -/
theorem c7_discriminator_derivation_and_maps :
    (∀ instruction_name scope : String,
      get_instruction_discriminator instruction_name scope =
        (sha256 (utf8Encode (scope ++ ":" ++ instruction_name))).take 8 ∧
      (get_instruction_discriminator instruction_name scope).length = 8) ∧
    (∀ (method_names : List String) (scope : String),
      method_names.Nodup →
      (method_names.map (fun n => discHex n scope)).Nodup →
      (create_discriminators method_names scope).func_disc.length =
          method_names.length ∧
      (create_discriminators method_names scope).disc_func.length =
          method_names.length ∧
      ∀ n ∈ method_names,
        (create_discriminators method_names scope).disc_func.lookup
            (discHex n scope) = some n) := by
  constructor
  · intro instruction_name scope
    exact ⟨rfl, get_instruction_discriminator_length instruction_name scope⟩
  · intro names scope hnd hmd
    have hcreate : create_discriminators names scope
        = names.foldl (discStep scope) ⟨[], []⟩ := rfl
    obtain ⟨h1, h2, h3⟩ := foldl_discStep_spec scope names ⟨[], []⟩ hnd hmd
      (by intro m hm; simp) (by intro m hm; simp)
    refine ⟨?_, ?_, ?_⟩
    · rw [hcreate]
      have hl := congrArg List.length h1
      simpa using hl
    · rw [hcreate]
      have hl := congrArg List.length h2
      simpa using hl
    · intro m hm
      rw [hcreate]
      exact h3 m hm

theorem c7_discriminator_derivation_and_maps_witness :
    (["transfer", "deposit"] : List String).Nodup ∧
    ((["transfer", "deposit"] : List String).map
        (fun n => discHex n "global")).Nodup ∧
    (create_discriminators ["transfer", "deposit"] "global").func_disc.length = 2 ∧
    (create_discriminators ["transfer", "deposit"] "global").disc_func.length = 2 ∧
    (create_discriminators ["transfer", "deposit"] "global").disc_func.lookup
        (discHex "transfer" "global") = some "transfer" ∧
    (create_discriminators ["transfer", "deposit"] "global").disc_func.lookup
        (discHex "deposit" "global") = some "deposit" := by
  have hnd : (["transfer", "deposit"] : List String).Nodup := by decide
  have hmd : ((["transfer", "deposit"] : List String).map
      (fun n => discHex n "global")).Nodup := by decide
  obtain ⟨hl1, hl2, hrt⟩ :=
    c7_discriminator_derivation_and_maps.2 ["transfer", "deposit"] "global" hnd hmd
  exact ⟨hnd, hmd, hl1, hl2, hrt "transfer" (by simp), hrt "deposit" (by simp)⟩

/-! ### SHA-256 validation against FIPS 180-4 test vectors -/

/-- The embedded SHA-256 reproduces the standard digest of `"abc"`. -/
theorem sha256_vector_abc :
    bytesHex (sha256 (utf8Encode "abc")) =
      "ba7816bf8f01cfea414140de5dae2223b00361a396177a9cb410ff61f20015ad" := by
  decide

/-- The embedded SHA-256 reproduces the standard digest of the empty
message. -/
theorem sha256_vector_empty :
    bytesHex (sha256 (utf8Encode "")) =
      "e3b0c44298fc1c149afbf4c8996fb92427ae41e4649b934ca495991b7852b855" := by
  decide

set_option maxRecDepth 4000 in
/-- The embedded SHA-256 reproduces the standard two-block digest of
`"abcdbcdecdefdefgefghfghighijhijkijkljklmklmnlmnomnopnopq"`. -/
theorem sha256_vector_two_blocks :
    bytesHex (sha256 (utf8Encode "abcdbcdecdefdefgefghfghighijhijkijkljklmklmnlmnomnopnopq")) =
      "248d6a61d20638b8e5c026930c3e6039a33ce45964ff2167f6ecedd419db06c1" := by
  decide
